import Mathlib

/-!
Verification of the self-service verification flow engine (Ory Kratos).

The development embeds the verification `Flow` entity and its operations
(`Valid`, `ContinueURL`, `NewFlow`, `FromOldFlow`, `NewPostHookFlow`) from
`selfservice/flow/verification/flow.go`, together with spec-modelled
collaborators (secure redirection, configuration accessors, the error
handler classification, the after-hook pipeline, strategy dispatch and the
identifier-first form hydrator) whose implementations live outside the
provided sources.

Effects are made explicit: the wall clock is an `Int` parameter `now`,
freshly generated UUIDs are a `Nat` parameter `id`, and the configuration
is a read-only record.  URLs are modelled structurally at the interface
boundary of Go's `net/url`: a scheme, host, path and an ordered list of
query key/value pairs.
-/

namespace Kratos

/-! ## String splitting primitives

Structural-recursion splitting over character lists, so that every
definition evaluates inside the kernel on concrete inputs. -/

/-- Split a character list at every occurrence of `c`; the result is the
list of chunks between separators (always non-empty). -/
def splitOnChar (c : Char) : List Char → List (List Char)
  | [] => [[]]
  | x :: xs =>
    match splitOnChar c xs with
    | [] => [[x]]
    | y :: ys => if x = c then [] :: y :: ys else (x :: y) :: ys

/-- Split a string at every occurrence of the character `c`. -/
def strSplit (c : Char) (s : String) : List String :=
  (splitOnChar c s.data).map (fun cs => ⟨cs⟩)

/-- Whether `p` is a prefix of `s`. -/
def strStartsWith (s p : String) : Bool :=
  p.data.isPrefixOf s.data

/-- Byte-wise (code-point-wise) string order, used to model the key order
of Go's `url.Values.Encode`. -/
def charListLe : List Char → List Char → Bool
  | [], _ => true
  | _ :: _, [] => false
  | a :: as, b :: bs =>
    if a.val < b.val then true
    else if b.val < a.val then false
    else charListLe as bs

/-- String order on the underlying character lists. -/
def strLeB (a b : String) : Bool := charListLe a.data b.data

/-! ## Query values (interface model of Go `url.Values`) -/

/-- An ordered list of query key/value pairs, the model of `url.Values`
(Go keeps a map of key to value list; `Get` returns the first value). -/
abbrev Query := List (String × String)

/-- `url.Values.Get`: the first value associated with the key, or the empty
string when the key is absent. -/
def queryGet (q : Query) (k : String) : String :=
  match q.find? (fun p => p.1 == k) with
  | some p => p.2
  | none => ""

/-- `url.Values.Set`: replace all values of the key with the single value. -/
def querySet (q : Query) (k v : String) : Query :=
  q.filter (fun p => p.1 ≠ k) ++ [(k, v)]

/-- `url.Values.Del`: remove every value of the key. -/
def queryDel (q : Query) (k : String) : Query :=
  q.filter (fun p => p.1 ≠ k)

/-- Insert a pair into a key-sorted query. -/
def insertPairSorted (p : String × String) : Query → Query
  | [] => [p]
  | q :: qs => if strLeB p.1 q.1 then p :: q :: qs else q :: insertPairSorted p qs

/-- `url.Values.Encode` sorts by key before serialising; this is the
structured shape of the sorted query (serialisation happens in
`URL.toString`). -/
def queryEncode (q : Query) : Query :=
  q.foldr insertPairSorted []

/-! ## URLs (interface model of Go `net/url.URL`) -/

/-- A structural URL: scheme, host, path, query. -/
structure URL where
  scheme : String
  host : String
  path : String
  query : Query
deriving Repr, DecidableEq

/-- The zero `url.URL{}` that `NewPostHookFlow` falls back to when the
original request URL does not parse. -/
def URL.empty : URL := ⟨"", "", "", []⟩

/-- Serialise one query pair. -/
def pairToString (p : String × String) : String := p.1 ++ "=" ++ p.2

/-- `url.URL.String`: scheme://host path ?query, with empty components
omitted. -/
def URL.toString (u : URL) : String :=
  (if u.scheme = "" then "" else u.scheme ++ "://" ++ u.host)
    ++ u.path
    ++ (match u.query with
        | [] => ""
        | q => "?" ++ String.intercalate "&" (q.map pairToString))

/-- Parse a raw query string into key/value pairs (`url.ParseQuery` at the
interface boundary: split on `&`, then each pair on the first `=`). -/
def parseQueryString (s : String) : Query :=
  if s = "" then []
  else (strSplit '&' s).filterMap (fun kv =>
    match strSplit '=' kv with
    | [] => none
    | k :: rest => some (k, String.intercalate "=" rest))

/-- Strip a leading `//`, the authority marker after the scheme. -/
def dropSlashSlash (s : String) : Option String :=
  match s.data with
  | '/' :: '/' :: rest => some ⟨rest⟩
  | _ => none

/-- `url.ParseRequestURI` / `urlx.Parse` at the interface boundary: accepts
an absolute URL (`scheme://host/path?query`) or a rooted path
(`/path?query`); anything else fails. -/
def URL.parse (s : String) : Option URL :=
  let (beforeQ, q) :=
    match strSplit '?' s with
    | [] => ("", ([] : Query))
    | [b] => (b, ([] : Query))
    | b :: rest => (b, parseQueryString (String.intercalate "?" rest))
  if strStartsWith beforeQ "/" then
    some ⟨"", "", beforeQ, q⟩
  else
    match strSplit ':' beforeQ with
    | [] => none
    | [_] => none
    | sch :: rest =>
      if sch = "" then none
      else
        match dropSlashSlash (String.intercalate ":" (rest)) with
        | none => none
        | some hostPath =>
          match strSplit '/' hostPath with
          | [] => none
          | h :: ps =>
            some ⟨sch, h,
              (match ps with
               | [] => ""
               | _ => "/" ++ String.intercalate "/" ps), q⟩

/-! ## Flow types, state and collaborators -/

/-- `flow.Type`: "api" or "browser" (§3 of the spec: enum {API, Browser}). -/
inductive FlowType where
  | api
  | browser
deriving Repr, DecidableEq

/-- Verification flow `State`: choose_method, sent_email, passed_challenge. -/
inductive State where
  | chooseMethod
  | sentEmail
  | passedChallenge
deriving Repr, DecidableEq

/-- Modelled from the spec: `container.Container`, the UI node container
owned by the flow (§3); only the members the flow constructor touches are
kept (`Method`, `Action`, abstract nodes). -/
structure Container where
  Method : String
  Action : String
  Nodes : List String
deriving Repr, DecidableEq

/-- Modelled from the spec: `flow.FlowExpiredError` (flow package, outside
the provided sources) carrying the flow's expiry time, and the generic
error result of the secure-redirect check. -/
inductive FlowError where
  | expired (expiredAt : Int)
  | redirectNotAllowed
  | populateFailed
deriving Repr, DecidableEq

/-- Modelled from the spec: a verification strategy; `NodeGroup` names the
method and `PopulateVerificationMethod` sets the flow's initial UI nodes
(§4.1: "a strategy's PopulateXMethod call sets initial UI"), possibly
failing. -/
structure Strategy where
  NodeGroup : String
  PopulateVerificationMethod : Container → Except FlowError Container

/-- Modelled from the spec: an HTTP request at the interface boundary,
carrying the full originating URL (`x.RequestURL(r)`). -/
structure Request where
  url : URL

/-- Modelled from the spec: the read-only configuration provider (§6),
restricted to the accessors the verification flow reads.  `allowed` is the
allowed-domains / self-service-URL redirect policy
(`selfservice.allowed_return_urls` plus the public base URL). -/
structure Config where
  SelfServiceBrowserDefaultReturnTo : URL
  SelfServiceFlowVerificationReturnToOpt : Option URL
  SelfPublicURL : URL
  allowed : URL → Bool

/-- Modelled from the spec: `config.SelfServiceFlowVerificationReturnTo`
returns the verification-specific return URL when configured, otherwise
the fallback it is given. -/
def Config.SelfServiceFlowVerificationReturnTo (c : Config) (fallback : URL) : URL :=
  match c.SelfServiceFlowVerificationReturnToOpt with
  | some u => u
  | none => fallback

/-- Modelled from the spec: `redir.SecureRedirectTo` (x/redir, outside the
provided sources).  Reads `return_to` from the source URL's query; when
absent it yields the given default, when present it must parse and match
the allow-list or the resolution fails (§4.1: open-redirect prevention). -/
def SecureRedirectTo (source : URL) (defaultReturnTo : URL)
    (allowed : URL → Bool) : Except FlowError URL :=
  let rt := queryGet source.query "return_to"
  if rt = "" then .ok defaultReturnTo
  else
    match URL.parse rt with
    | none => .error .redirectNotAllowed
    | some u => if allowed u then .ok u else .error .redirectNotAllowed

/-! ## The verification Flow entity (`flow.go`) -/

/-- The path the submit UI action is built from. -/
def RouteSubmitFlow : String := "/self-service/verification"

/-- `urlx.AppendPaths` restricted to one path segment. -/
def appendPath (u : URL) (p : String) : URL :=
  { u with path := u.path ++ p }

/-- A verification flow (`verification.Flow`).  UUIDs are `Nat`,
timestamps are `Int`, `json.RawMessage` is a `String`, and
`sqlxx.NullString` is an `Option String`. -/
structure Flow where
  ID : Nat
  type : FlowType
  ExpiresAt : Int
  IssuedAt : Int
  RequestURL : String
  ReturnTo : String
  Active : Option String
  UI : Container
  State : State
  OAuth2LoginChallenge : Option String
  CSRFToken : String
  TransientPayload : String
deriving Repr, DecidableEq

def Flow.GetType (f : Flow) : FlowType := f.type

def Flow.GetRequestURL (f : Flow) : String := f.RequestURL

def Flow.GetTransientPayload (f : Flow) : String := f.TransientPayload

def Flow.GetOAuth2LoginChallenge (f : Flow) : Option String :=
  f.OAuth2LoginChallenge

/-- `flow.AppendFlowTo`: append the flow id as the `flow` query parameter. -/
def AppendFlowTo (src : URL) (id : Nat) : URL :=
  { src with query := querySet src.query "flow" (toString id) }

/-- `Flow.AppendTo`: append this flow's id to a base URL. -/
def Flow.AppendTo (f : Flow) (src : URL) : URL :=
  AppendFlowTo src f.ID

/-- `Flow.Valid`: a `FlowExpiredError` exactly when `ExpiresAt` is strictly
before the current time (`f.ExpiresAt.Before(time.Now())`), `nil`
otherwise.  The wall clock is the explicit parameter `now`. -/
def Flow.Valid (f : Flow) (now : Int) : Option FlowError :=
  if f.ExpiresAt < now then some (.expired f.ExpiresAt) else none

/-- The trailing strategy block of `verification.NewFlow`: when a strategy
is given, record it as `Active` and let it populate the UI, aborting on
its error. -/
def applyStrategy (strategy : Option Strategy) (f : Flow) :
    Except FlowError Flow :=
  match strategy with
  | none => .ok f
  | some s =>
    match s.PopulateVerificationMethod f.UI with
    | .error e => .error e
    | .ok ui => .ok { f with Active := some s.NodeGroup, UI := ui }

/-- `verification.NewFlow`: pre-validate the request's `return_to` against
the redirect policy, then build the flow.  `now` stands for
`time.Now().UTC()` and `id` for the freshly generated `x.NewUUID()`. -/
def NewFlow (conf : Config) (exp : Int) (csrf : String) (r : Request)
    (strategy : Option Strategy) (ft : FlowType) (now : Int) (id : Nat) :
    Except FlowError Flow :=
  match SecureRedirectTo r.url conf.SelfServiceBrowserDefaultReturnTo
      conf.allowed with
  | .error e => .error e
  | .ok _ =>
    applyStrategy strategy
      { ID := id
        ExpiresAt := now + exp
        IssuedAt := now
        RequestURL := r.url.toString
        ReturnTo := ""
        Active := none
        UI := { Method := "POST"
                Action :=
                  (AppendFlowTo (appendPath conf.SelfPublicURL RouteSubmitFlow)
                    id).toString
                Nodes := [] }
        State := .chooseMethod
        OAuth2LoginChallenge := none
        CSRFToken := csrf
        type := ft
        TransientPayload := "" }

/-- `verification.FromOldFlow`: restart a flow.  API flows are downgraded
to browser flows ("Using the same flow in the recovery/verification
context can lead to using API flow in a verification/recovery email"),
and the old flow's `RequestURL` is carried over. -/
def FromOldFlow (conf : Config) (exp : Int) (csrf : String) (r : Request)
    (strategy : Option Strategy) (of : Flow) (now : Int) (id : Nat) :
    Except FlowError Flow :=
  match NewFlow conf exp csrf r strategy
      (if of.type = FlowType.api then FlowType.browser else of.type) now id with
  | .error e => .error e
  | .ok nf => .ok { nf with RequestURL := of.RequestURL }

/-- The request-URL rewrite performed by `NewPostHookFlow`: parse the
original request URL (falling back to the zero URL), promote a non-empty
`after_verification_return_to` query parameter to `return_to`, drop
`after_verification_return_to`, and re-encode the query. -/
def newPostHookRequestURL (orig : String) : URL :=
  let requestURL :=
    match URL.parse orig with
    | some u => u
    | none => URL.empty
  let query := requestURL.query
  let afterVerificationReturn := queryGet query "after_verification_return_to"
  let query :=
    if afterVerificationReturn ≠ "" then
      querySet query "return_to" afterVerificationReturn
    else query
  let query := queryDel query "after_verification_return_to"
  { requestURL with query := queryEncode query }

/-- `verification.NewPostHookFlow`: a fresh flow of the original flow's
type, carrying over the transient payload, the rewritten request URL and
the OAuth2 login challenge. -/
def NewPostHookFlow (conf : Config) (exp : Int) (csrf : String) (r : Request)
    (strategy : Option Strategy) (original : Flow) (now : Int) (id : Nat) :
    Except FlowError Flow :=
  match NewFlow conf exp csrf r strategy original.GetType now id with
  | .error e => .error e
  | .ok f =>
    .ok { f with
          TransientPayload := original.GetTransientPayload
          RequestURL := (newPostHookRequestURL original.GetRequestURL).toString
          OAuth2LoginChallenge := original.GetOAuth2LoginChallenge }

/-- `Flow.ContinueURL`: precedence (1) allowed `return_to` of the original
request URL, (2) the verification-specific configured return URL,
(3) the global default return URL; parse or policy failures fall back. -/
def Flow.ContinueURL (f : Flow) (conf : Config) : URL :=
  let flowContinueURL :=
    conf.SelfServiceFlowVerificationReturnTo
      conf.SelfServiceBrowserDefaultReturnTo
  match URL.parse f.GetRequestURL with
  | none => flowContinueURL
  | some verificationRequestURL =>
    match SecureRedirectTo verificationRequestURL flowContinueURL
        conf.allowed with
    | .error _ => flowContinueURL
    | .ok returnTo => returnTo

/-! ## Error handler classification (spec §4.4)

The settings/verification error handler (`WriteFlowError`) is not among
the provided sources; only its test is.  The classifier below is modelled
from the spec's ordered classification and the behaviours the test pins
down. -/

/-- Modelled from the spec: the closed error-kind taxonomy the error
handler classifies (§4.4, §7). -/
inductive SubmitError where
  | expired (expiredAt : Int)
  | validation (messageID : Nat)
  | returnToUI
  | noActiveSession
  | aalNotSatisfied
  | needsReAuth
  | generic (status : Nat)
deriving Repr, DecidableEq

/-- Modelled from the spec: the response the error handler produces —
either a JSON body with a status, flow reference and optional
`use_flow_id`, or a browser redirect.  `newFlow` carries the freshly
created replacement flow on the expiry path. -/
structure ErrResponse where
  status : Nat
  flowID : Option Nat
  useFlowID : Option Nat
  newFlow : Option (FlowType × Nat)
  redirectToLogin : Bool
  redirectToErrorUI : Bool
deriving Repr, DecidableEq

/-- Modelled from the spec: `WriteFlowError`'s ordered classification
(§4.4, first match wins) for a present flow of type `ft` and id `flowID`;
`freshID` is the id minted for the replacement flow on the expiry path.
Expired API flows answer 410 Gone with `use_flow_id` referencing a new
flow of the same type; expired browser flows redirect to the new flow;
the "return to UI" sentinel is treated as success (HTTP 200, current
flow). -/
def WriteFlowError (ft : FlowType) (flowID : Nat) (e : SubmitError)
    (freshID : Nat) : ErrResponse :=
  match e with
  | .expired _ =>
    match ft with
    | .api =>
      { status := 410, flowID := some flowID, useFlowID := some freshID
        newFlow := some (ft, freshID)
        redirectToLogin := false, redirectToErrorUI := false }
    | .browser =>
      { status := 303, flowID := some freshID, useFlowID := none
        newFlow := some (ft, freshID)
        redirectToLogin := false, redirectToErrorUI := false }
  | .validation _ =>
    { status := 400, flowID := some flowID, useFlowID := none
      newFlow := none, redirectToLogin := false, redirectToErrorUI := false }
  | .returnToUI =>
    { status := 200, flowID := some flowID, useFlowID := none
      newFlow := none, redirectToLogin := false, redirectToErrorUI := false }
  | .noActiveSession =>
    { status := 401, flowID := some flowID, useFlowID := none
      newFlow := none, redirectToLogin := ft = FlowType.browser
      redirectToErrorUI := false }
  | .aalNotSatisfied =>
    { status := 403, flowID := some flowID, useFlowID := none
      newFlow := none, redirectToLogin := ft = FlowType.browser
      redirectToErrorUI := false }
  | .needsReAuth =>
    { status := 303, flowID := some flowID, useFlowID := none
      newFlow := none, redirectToLogin := true, redirectToErrorUI := false }
  | .generic s =>
    { status := s, flowID := some flowID, useFlowID := none
      newFlow := none, redirectToLogin := false, redirectToErrorUI := true }

/-! ## After-hook pipeline (spec §4.3) -/

/-- Modelled from the spec: what one configured hook does when executed on
the current flow — succeed, raise the "return to UI" control-flow
sentinel, or fail. -/
inductive HookOutcome where
  | ok
  | returnToUI
  | failed (msg : String)
deriving Repr, DecidableEq

/-- Modelled from the spec: a configured hook `{Name, Config}`; its
behaviour at the current flow is the recorded outcome. -/
structure Hook where
  Name : String
  outcome : HookOutcome
deriving Repr, DecidableEq

/-- Modelled from the spec: sequential after-hook execution (§4.3).
Returns the names of the hooks that actually ran, in order, together with
the pipeline outcome; a "return to UI" sentinel or a failure
short-circuits the remaining hooks. -/
def runAfterHooks : List Hook → List String × HookOutcome
  | [] => ([], .ok)
  | h :: hs =>
    match h.outcome with
    | .ok =>
      let rest := runAfterHooks hs
      (h.Name :: rest.1, rest.2)
    | .returnToUI => ([h.Name], .returnToUI)
    | .failed m => ([h.Name], .failed m)

/-! ## Strategy dispatch (spec §4.2) -/

/-- A submitted form body, abstractly: named values. -/
abbrev Submission := List (String × String)

/-- Modelled from the spec: a registered login strategy — its method
identifier, whether configuration enables it, and whether it claims a
given submission. -/
structure LoginStrategy where
  id : String
  enabled : Bool
  claims : Submission → Bool

/-- The exact user-facing message when no strategy claims a submission. -/
def noStrategyFoundMessage : String :=
  "Could not find a strategy to log you in with. Did you fill out the form correctly?"

/-- The dispatch result: an HTTP status with the UI messages attached to
the flow, or the identifier of the strategy that claimed the
submission. -/
inductive DispatchResult where
  | rejected (status : Nat) (uiMessages : List String)
  | dispatched (strategyID : String)
deriving Repr, DecidableEq

/-- Modelled from the spec: strategy dispatch (§4.2).  The first enabled
strategy claiming the submission wins; when none does, the submission is
rejected with HTTP 400 and exactly the generic
"could not find a strategy" message. -/
def dispatchSubmission (ss : List LoginStrategy) (sub : Submission) :
    DispatchResult :=
  match ss.find? (fun s => s.enabled && s.claims sub) with
  | none => .rejected 400 [noStrategyFoundMessage]
  | some s => .dispatched s.id

/-! ## Identifier-first form hydration (spec §7, Scenario E) -/

/-- Modelled from the spec: what the identifier-first hydrator can see of
an identity — whether any enabled credential method applies to it. -/
structure LoginIdentity where
  id : Nat
  hasApplicableCredential : Bool
deriving Repr, DecidableEq

/-- Modelled from the spec: the typed error of the identifier-first
strategy (`idfirst.ErrNoCredentialsFound`). -/
inductive IdFirstError where
  | noCredentialsFound
deriving Repr, DecidableEq

/-- Modelled from the spec:
`PopulateLoginMethodIdentifierFirstCredentials`, which is not among the
provided sources (only its test is).  With `mitigate` the
account-enumeration mitigation flag, an unknown identifier (`none`) and a
known identity without an applicable credential method both surface the
same generic `noCredentialsFound` error (§7: identical generic errors
regardless of whether the identifier exists). -/
def PopulateLoginMethodIdentifierFirstCredentials (_mitigate : Bool)
    (ident : Option LoginIdentity) : Except IdFirstError Unit :=
  match ident with
  | none => .error .noCredentialsFound
  | some i =>
    if i.hasApplicableCredential then .ok () else .error .noCredentialsFound

/-! ## Statement helpers and concrete fixtures -/

/-- The continue-URL resolution exactly as the specification words it:
(1) a `return_to` query parameter of the flow's original request URL that
is a valid URL and matches the allowed-domains policy is returned
verbatim; (2) otherwise the flow-type-specific configured default return
URL; (3) otherwise the global default return URL; an unparseable request
URL or a disallowed domain falls through to the defaults instead of
failing. -/
def continueURLSpec (f : Flow) (conf : Config) : URL :=
  let defaults :=
    match conf.SelfServiceFlowVerificationReturnToOpt with
    | some u => u
    | none => conf.SelfServiceBrowserDefaultReturnTo
  match URL.parse f.RequestURL with
  | none => defaults
  | some req =>
    let rt := queryGet req.query "return_to"
    if rt = "" then defaults
    else
      match URL.parse rt with
      | none => defaults
      | some u => if conf.allowed u then u else defaults

/-- The `after_verification_return_to` query parameter of a request URL
(empty when the URL does not parse or the parameter is absent). -/
def afterVerificationParam (orig : String) : String :=
  match URL.parse orig with
  | some u => queryGet u.query "after_verification_return_to"
  | none => ""

/-- Extract the flow of a successful result, with a fallback flow for the
error case; used to name concrete flows in witnesses. -/
def okFlow (e : Except FlowError Flow) (d : Flow) : Flow :=
  match e with
  | .ok f => f
  | .error _ => d

/-- A concrete configuration for witnesses: a verification-specific return
URL is configured and every redirect target is allowed. -/
def exConf : Config :=
  { SelfServiceBrowserDefaultReturnTo := ⟨"http", "global.example", "/", []⟩
    SelfServiceFlowVerificationReturnToOpt :=
      some ⟨"http", "verified.example", "/done", []⟩
    SelfPublicURL := ⟨"http", "kratos.example", "", []⟩
    allowed := fun _ => true }

/-- A concrete incoming request for witnesses (no `return_to`). -/
def exReq : Request :=
  ⟨⟨"http", "kratos.example", "/self-service/verification/browser", []⟩⟩

/-- A concrete source flow for witnesses and counterexamples: an API flow
with a transient payload and an `after_verification_return_to` parameter
in its request URL. -/
def exOldFlow : Flow :=
  { ID := 1
    type := .api
    ExpiresAt := 100
    IssuedAt := 0
    RequestURL := "http://x.example/?after_verification_return_to=http://y.example/home"
    ReturnTo := ""
    Active := none
    UI := { Method := "POST", Action := "", Nodes := [] }
    State := .chooseMethod
    OAuth2LoginChallenge := some "challenge"
    CSRFToken := "token"
    TransientPayload := "payload" }

/-- Strategies for the dispatch witness: one disabled, one enabled that
does not claim the submission. -/
def exStrategies : List LoginStrategy :=
  [⟨"password", false, fun _ => true⟩, ⟨"oidc", true, fun _ => false⟩]

/-- A concrete submission no enabled strategy claims. -/
def exSubmission : Submission := [("method", "password")]

/-- A known identity without an applicable credential method. -/
def exIdentity : LoginIdentity := ⟨7, false⟩

/-! ## Helper lemmas -/

theorem mem_insertPairSorted {p x : String × String} {l : Query} :
    p ∈ insertPairSorted x l ↔ p = x ∨ p ∈ l := by
  induction l with
  | nil => simp [insertPairSorted]
  | cons q qs ih =>
    by_cases h : strLeB x.1 q.1
    · simp [insertPairSorted, h]
    · simp only [insertPairSorted, if_neg h, List.mem_cons, ih]
      tauto

theorem mem_queryEncode {p : String × String} {q : Query} :
    p ∈ queryEncode q ↔ p ∈ q := by
  induction q with
  | nil => simp [queryEncode]
  | cons x xs ih =>
    simp only [queryEncode, List.foldr_cons, mem_insertPairSorted]
    simp only [queryEncode] at ih
    simp [ih]

theorem queryGet_eq_of_mem {q : Query} {k v : String}
    (hm : (k, v) ∈ q) (huniq : ∀ p ∈ q, p.1 = k → p.2 = v) :
    queryGet q k = v := by
  unfold queryGet
  cases hfind : q.find? (fun p => p.1 == k) with
  | none =>
    exfalso
    have := List.find?_eq_none.mp hfind (k, v) hm
    simp at this
  | some p =>
    have hp := List.find?_some hfind
    have hmem := List.mem_of_find?_eq_some hfind
    simp only [beq_iff_eq] at hp
    exact huniq p hmem hp

theorem queryGet_eq_empty {q : Query} {k : String}
    (h : ∀ p ∈ q, p.1 ≠ k) : queryGet q k = "" := by
  unfold queryGet
  cases hfind : q.find? (fun p => p.1 == k) with
  | none => rfl
  | some p =>
    have hp := List.find?_some hfind
    have hmem := List.mem_of_find?_eq_some hfind
    simp only [beq_iff_eq] at hp
    exact absurd hp (h p hmem)

theorem mem_querySet_self {q : Query} {k v : String} :
    (k, v) ∈ querySet q k v := by
  unfold querySet
  simp

theorem querySet_key_unique {q : Query} {k v : String} :
    ∀ p ∈ querySet q k v, p.1 = k → p.2 = v := by
  intro p hp hk
  unfold querySet at hp
  rcases List.mem_append.mp hp with h | h
  · have := List.of_mem_filter h
    simp only [decide_eq_true_eq] at this
    exact absurd hk this
  · simp only [List.mem_singleton] at h
    subst h
    rfl

theorem mem_queryDel {q : Query} {k : String} {p : String × String} :
    p ∈ queryDel q k ↔ p ∈ q ∧ p.1 ≠ k := by
  unfold queryDel
  simp [List.mem_filter]

theorem applyStrategy_ok {strategy : Option Strategy} {f g : Flow}
    (h : applyStrategy strategy f = .ok g) :
    g.ID = f.ID ∧ g.ExpiresAt = f.ExpiresAt ∧ g.IssuedAt = f.IssuedAt
    ∧ g.RequestURL = f.RequestURL ∧ g.type = f.type
    ∧ g.TransientPayload = f.TransientPayload ∧ g.State = f.State
    ∧ g.CSRFToken = f.CSRFToken := by
  unfold applyStrategy at h
  split at h
  · cases h
    exact ⟨rfl, rfl, rfl, rfl, rfl, rfl, rfl, rfl⟩
  · split at h
    · exact absurd h (by simp)
    · cases h
      exact ⟨rfl, rfl, rfl, rfl, rfl, rfl, rfl, rfl⟩

theorem NewFlow_ok {conf : Config} {exp : Int} {csrf : String} {r : Request}
    {strategy : Option Strategy} {ft : FlowType} {now : Int} {id : Nat}
    {f : Flow} (h : NewFlow conf exp csrf r strategy ft now id = .ok f) :
    f.ID = id ∧ f.ExpiresAt = now + exp ∧ f.IssuedAt = now
    ∧ f.RequestURL = r.url.toString ∧ f.type = ft
    ∧ f.TransientPayload = "" ∧ f.State = .chooseMethod
    ∧ f.CSRFToken = csrf := by
  unfold NewFlow at h
  split at h
  · exact absurd h (by simp)
  · exact applyStrategy_ok h

theorem FromOldFlow_ok {conf : Config} {exp : Int} {csrf : String}
    {r : Request} {strategy : Option Strategy} {of : Flow} {now : Int}
    {id : Nat} {nf : Flow}
    (h : FromOldFlow conf exp csrf r strategy of now id = .ok nf) :
    nf.ID = id ∧ nf.RequestURL = of.RequestURL ∧ nf.TransientPayload = ""
    ∧ nf.type = (if of.type = FlowType.api then FlowType.browser else of.type)
    ∧ nf.ExpiresAt = now + exp := by
  unfold FromOldFlow at h
  split at h
  · exact absurd h (by simp)
  · next f0 hNF =>
    cases h
    obtain ⟨h1, h2, _, _, h5, h6, _, _⟩ := NewFlow_ok hNF
    exact ⟨h1, rfl, h6, h5, h2⟩

theorem NewPostHookFlow_ok {conf : Config} {exp : Int} {csrf : String}
    {r : Request} {strategy : Option Strategy} {original : Flow} {now : Int}
    {id : Nat} {nf : Flow}
    (h : NewPostHookFlow conf exp csrf r strategy original now id = .ok nf) :
    nf.ID = id ∧ nf.TransientPayload = original.TransientPayload
    ∧ nf.RequestURL = (newPostHookRequestURL original.RequestURL).toString
    ∧ nf.type = original.type
    ∧ nf.OAuth2LoginChallenge = original.OAuth2LoginChallenge := by
  unfold NewPostHookFlow at h
  split at h
  · exact absurd h (by simp)
  · next f0 hNF =>
    cases h
    obtain ⟨h1, _, _, _, h5, _, _, _⟩ := NewFlow_ok hNF
    exact ⟨h1, rfl, rfl, h5, rfl⟩

theorem runAfterHooks_halts (pre post : List Hook) (h : Hook)
    (hpre : ∀ x ∈ pre, x.outcome = HookOutcome.ok)
    (hh : h.outcome = HookOutcome.returnToUI) :
    runAfterHooks (pre ++ h :: post)
      = (pre.map Hook.Name ++ [h.Name], HookOutcome.returnToUI) := by
  induction pre with
  | nil => simp [runAfterHooks, hh]
  | cons x xs ih =>
    have hx : x.outcome = HookOutcome.ok := hpre x (by simp)
    have ih' := ih (fun y hy => hpre y (by simp [hy]))
    simp [runAfterHooks, hx, ih']

theorem newPostHookRequestURL_return_to {orig : String}
    (h : afterVerificationParam orig ≠ "") :
    queryGet (newPostHookRequestURL orig).query "return_to"
      = afterVerificationParam orig := by
  unfold afterVerificationParam at h ⊢
  unfold newPostHookRequestURL
  cases hp : URL.parse orig with
  | none => simp [hp] at h
  | some u =>
    simp only [hp] at h ⊢
    rw [if_pos h]
    apply queryGet_eq_of_mem
    · rw [mem_queryEncode, mem_queryDel]
      exact ⟨mem_querySet_self, by simp⟩
    · intro p hp1 hk
      exact querySet_key_unique p ((mem_queryDel.mp (mem_queryEncode.mp hp1)).1) hk

theorem newPostHookRequestURL_no_avrt (orig : String) :
    queryGet (newPostHookRequestURL orig).query
      "after_verification_return_to" = "" := by
  unfold newPostHookRequestURL
  cases hp : URL.parse orig with
  | none =>
    simp only [hp]
    rfl
  | some u =>
    simp only [hp]
    by_cases h : queryGet u.query "after_verification_return_to" ≠ ""
    · rw [if_pos h]
      apply queryGet_eq_empty
      intro p hp1
      exact (mem_queryDel.mp (mem_queryEncode.mp hp1)).2
    · rw [if_neg h]
      apply queryGet_eq_empty
      intro p hp1
      exact (mem_queryDel.mp (mem_queryEncode.mp hp1)).2

theorem newPostHookRequestURL_unparseable {orig : String}
    (h : URL.parse orig = none) :
    (newPostHookRequestURL orig).toString = "" := by
  unfold newPostHookRequestURL
  simp only [h]
  rfl

/-! ## Claim theorems -/

/-- C1: `Valid()` returns a `FlowExpiredError` if and only if the flow's
`ExpiresAt` is strictly before the current time, and returns no error
otherwise; a freshly created flow passes `Valid()` until its configured
lifespan elapses. -/
theorem Flow.valid_expired_iff (f nf : Flow) (now created t : Int)
    (conf : Config) (exp : Int) (csrf : String) (r : Request)
    (strategy : Option Strategy) (ft : FlowType) (id : Nat)
    (hnf : NewFlow conf exp csrf r strategy ft created id = .ok nf)
    (ht : t ≤ created + exp) :
    (f.Valid now = some (FlowError.expired f.ExpiresAt) ↔ f.ExpiresAt < now)
    ∧ (f.Valid now = none ↔ ¬ f.ExpiresAt < now)
    ∧ nf.Valid t = none := by
  obtain ⟨_, hexp, _, _, _, _, _, _⟩ := NewFlow_ok hnf
  refine ⟨?_, ?_, ?_⟩
  · unfold Flow.Valid
    split <;> simp_all
  · unfold Flow.Valid
    split <;> simp_all
  · unfold Flow.Valid
    rw [hexp, if_neg (not_lt.mpr ht)]

/-- C1 witness: an expired flow (`ExpiresAt` 100, now 200) yields exactly
the expiry error, and a flow freshly created at time 0 with lifespan 60 is
still valid at time 50. -/
theorem Flow.valid_expired_iff_witness :
    (exOldFlow.Valid 200 = some (FlowError.expired exOldFlow.ExpiresAt)
      ↔ exOldFlow.ExpiresAt < 200)
    ∧ (exOldFlow.Valid 200 = none ↔ ¬ exOldFlow.ExpiresAt < 200)
    ∧ (okFlow (NewFlow exConf 60 "token" exReq none FlowType.browser 0 5)
        exOldFlow).Valid 50 = none :=
  Flow.valid_expired_iff exOldFlow _ 200 0 50 exConf 60 "token" exReq none
    FlowType.browser 5 rfl (by decide)

/-- C2: `ContinueURL` resolves with the exact precedence the specification
states: (1) an allowed `return_to` of the original request URL verbatim,
(2) the verification-specific configured default, (3) the global default;
parse failures and disallowed domains fall through to the defaults. -/
theorem Flow.continueURL_precedence (f : Flow) (conf : Config) :
    f.ContinueURL conf = continueURLSpec f conf := by
  unfold Flow.ContinueURL continueURLSpec SecureRedirectTo
    Config.SelfServiceFlowVerificationReturnTo Flow.GetRequestURL
  cases hp : URL.parse f.RequestURL with
  | none => rfl
  | some req =>
    by_cases hrt : queryGet req.query "return_to" = ""
    · simp [hrt]
    · simp only [if_neg hrt]
      cases URL.parse (queryGet req.query "return_to") with
      | none => simp
      | some u =>
        by_cases hal : conf.allowed u <;> simp [hal]

/-- C8: `Valid()` and `ContinueURL()` are deterministic reads — applied
twice to the same unmodified flow (same clock, same configuration) they
return identical results. -/
theorem Flow.valid_continueURL_idempotent (f g : Flow) (now : Int)
    (conf : Config) (h : g = f) :
    f.Valid now = g.Valid now ∧ f.ContinueURL conf = g.ContinueURL conf := by
  subst h
  exact ⟨rfl, rfl⟩

/-- C8 witness: the two calls agree on a concrete flow. -/
theorem Flow.valid_continueURL_idempotent_witness :
    exOldFlow.Valid 200 = exOldFlow.Valid 200
    ∧ exOldFlow.ContinueURL exConf = exOldFlow.ContinueURL exConf :=
  Flow.valid_continueURL_idempotent exOldFlow exOldFlow 200 exConf rfl

/-- C9: `FromOldFlow` downgrades the flow type: an API source flow yields
a browser flow, any other type is kept; the restarted flow is never of
type API. -/
theorem FromOldFlow_type_downgrade (conf : Config) (exp : Int)
    (csrf : String) (r : Request) (strategy : Option Strategy) (of : Flow)
    (now : Int) (id : Nat) (nf : Flow)
    (h : FromOldFlow conf exp csrf r strategy of now id = .ok nf) :
    nf.type = (if of.type = FlowType.api then FlowType.browser else of.type)
    ∧ nf.type ≠ FlowType.api := by
  obtain ⟨_, _, _, h4, _⟩ := FromOldFlow_ok h
  refine ⟨h4, ?_⟩
  rw [h4]
  cases hof : of.type <;> simp

/-- C9 witness: restarting the concrete API flow yields a browser flow. -/
theorem FromOldFlow_type_downgrade_witness :
    (okFlow (FromOldFlow exConf 60 "token" exReq none exOldFlow 0 5)
        exOldFlow).type
      = (if exOldFlow.type = FlowType.api then FlowType.browser
         else exOldFlow.type)
    ∧ (okFlow (FromOldFlow exConf 60 "token" exReq none exOldFlow 0 5)
        exOldFlow).type ≠ FlowType.api :=
  FromOldFlow_type_downgrade exConf 60 "token" exReq none exOldFlow 0 5 _ rfl

/-- C3 counterexample: on a concrete source flow, `FromOldFlow` does NOT
carry over `TransientPayload` (the restarted flow's payload is empty while
the source's is "payload"), and `NewPostHookFlow` does NOT keep
`RequestURL` verbatim (it rewrites the `after_verification_return_to`
parameter into `return_to`).  The claim that both functions preserve both
fields is therefore false. -/
theorem restart_preserves_counterexample :
    (FromOldFlow exConf 60 "token" exReq none exOldFlow 0 2).map
        Flow.TransientPayload = .ok ""
    ∧ exOldFlow.TransientPayload = "payload"
    ∧ ("" : String) ≠ "payload"
    ∧ (NewPostHookFlow exConf 60 "token" exReq none exOldFlow 0 2).map
        Flow.RequestURL = .ok "http://x.example/?return_to=http://y.example/home"
    ∧ exOldFlow.RequestURL
        = "http://x.example/?after_verification_return_to=http://y.example/home"
    ∧ ("http://x.example/?return_to=http://y.example/home" : String)
        ≠ "http://x.example/?after_verification_return_to=http://y.example/home" :=
  ⟨rfl, rfl, by decide, rfl, rfl, by decide⟩

/-- C3 (amended): both `FromOldFlow` and `NewPostHookFlow` mint the
freshly generated id (distinct from the source flow's id whenever the
generated UUID is fresh); `FromOldFlow` preserves the source's
`RequestURL` (but resets `TransientPayload`), while `NewPostHookFlow`
preserves the source's `TransientPayload` (but rewrites `RequestURL` by
the `after_verification_return_to` rule). -/
theorem restart_fresh_id_and_carryover (conf : Config) (exp : Int)
    (csrf : String) (r : Request) (strategy : Option Strategy) (of : Flow)
    (now : Int) (id : Nat) (nf nph : Flow)
    (hid : id ≠ of.ID)
    (h1 : FromOldFlow conf exp csrf r strategy of now id = .ok nf)
    (h2 : NewPostHookFlow conf exp csrf r strategy of now id = .ok nph) :
    nf.ID = id ∧ nf.ID ≠ of.ID ∧ nf.RequestURL = of.RequestURL
    ∧ nph.ID = id ∧ nph.ID ≠ of.ID
    ∧ nph.TransientPayload = of.TransientPayload := by
  obtain ⟨a1, a2, _, _, _⟩ := FromOldFlow_ok h1
  obtain ⟨b1, b2, _, _, _⟩ := NewPostHookFlow_ok h2
  exact ⟨a1, a1 ▸ hid, a2, b1, b1 ▸ hid, b2⟩

/-- C3 (amended) witness: at the concrete source flow (id 1) and fresh id
2, both restarted flows carry id 2 and the respective fields. -/
theorem restart_fresh_id_and_carryover_witness :
    (okFlow (FromOldFlow exConf 60 "token" exReq none exOldFlow 0 2)
        exOldFlow).ID = 2
    ∧ (okFlow (FromOldFlow exConf 60 "token" exReq none exOldFlow 0 2)
        exOldFlow).ID ≠ exOldFlow.ID
    ∧ (okFlow (FromOldFlow exConf 60 "token" exReq none exOldFlow 0 2)
        exOldFlow).RequestURL = exOldFlow.RequestURL
    ∧ (okFlow (NewPostHookFlow exConf 60 "token" exReq none exOldFlow 0 2)
        exOldFlow).ID = 2
    ∧ (okFlow (NewPostHookFlow exConf 60 "token" exReq none exOldFlow 0 2)
        exOldFlow).ID ≠ exOldFlow.ID
    ∧ (okFlow (NewPostHookFlow exConf 60 "token" exReq none exOldFlow 0 2)
        exOldFlow).TransientPayload = exOldFlow.TransientPayload :=
  restart_fresh_id_and_carryover exConf 60 "token" exReq none exOldFlow 0 2
    _ _ (by decide) rfl rfl

/-- C10: `NewPostHookFlow` rewrites the new flow's request URL: the new
URL is the serialisation of the rewritten original; a non-empty
`after_verification_return_to` parameter becomes the new `return_to`;
`after_verification_return_to` is always removed; an unparseable original
request URL yields the empty URL instead of an error. -/
theorem NewPostHookFlow_requestURL_rewrite (conf : Config) (exp : Int)
    (csrf : String) (r : Request) (strategy : Option Strategy) (of : Flow)
    (now : Int) (id : Nat) (nph : Flow)
    (h : NewPostHookFlow conf exp csrf r strategy of now id = .ok nph) :
    nph.RequestURL = (newPostHookRequestURL of.RequestURL).toString
    ∧ (afterVerificationParam of.RequestURL ≠ "" →
        queryGet (newPostHookRequestURL of.RequestURL).query "return_to"
          = afterVerificationParam of.RequestURL)
    ∧ queryGet (newPostHookRequestURL of.RequestURL).query
        "after_verification_return_to" = ""
    ∧ (URL.parse of.RequestURL = none → nph.RequestURL = "") := by
  obtain ⟨_, _, h3, _, _⟩ := NewPostHookFlow_ok h
  refine ⟨h3, fun hav => newPostHookRequestURL_return_to hav,
    newPostHookRequestURL_no_avrt of.RequestURL, fun hnone => ?_⟩
  rw [h3]
  exact newPostHookRequestURL_unparseable hnone

/-- C10 witness: on the concrete source flow, the
`after_verification_return_to` value becomes `return_to` and the
parameter itself is gone. -/
theorem NewPostHookFlow_requestURL_rewrite_witness :
    queryGet (newPostHookRequestURL exOldFlow.RequestURL).query "return_to"
      = afterVerificationParam exOldFlow.RequestURL
    ∧ queryGet (newPostHookRequestURL exOldFlow.RequestURL).query
        "after_verification_return_to" = ""
    ∧ (okFlow (NewPostHookFlow exConf 60 "token" exReq none exOldFlow 0 2)
        exOldFlow).RequestURL
      = (newPostHookRequestURL exOldFlow.RequestURL).toString := by
  have h := NewPostHookFlow_requestURL_rewrite exConf 60 "token" exReq none
    exOldFlow 0 2 _ rfl
  exact ⟨h.2.1 (by decide), h.2.2.1, h.1⟩

/-- C4: classifying a `FlowExpiredError` for an API flow yields HTTP 410
Gone with a `use_flow_id` referencing a freshly created flow of the same
flow type, distinct from the expired flow's id. -/
theorem WriteFlowError_expired_api (flowID freshID : Nat) (t : Int)
    (hfresh : freshID ≠ flowID) :
    (WriteFlowError FlowType.api flowID (SubmitError.expired t)
        freshID).status = 410
    ∧ (WriteFlowError FlowType.api flowID (SubmitError.expired t)
        freshID).useFlowID = some freshID
    ∧ (WriteFlowError FlowType.api flowID (SubmitError.expired t)
        freshID).newFlow = some (FlowType.api, freshID)
    ∧ (WriteFlowError FlowType.api flowID (SubmitError.expired t)
        freshID).useFlowID ≠ some flowID := by
  refine ⟨rfl, rfl, rfl, ?_⟩
  simp [WriteFlowError, hfresh]

/-- C4 witness: flow 1, expired an hour before time 0, fresh flow 2. -/
theorem WriteFlowError_expired_api_witness :
    (WriteFlowError FlowType.api 1 (SubmitError.expired (-3600)) 2).status
      = 410
    ∧ (WriteFlowError FlowType.api 1 (SubmitError.expired (-3600))
        2).useFlowID = some 2
    ∧ (WriteFlowError FlowType.api 1 (SubmitError.expired (-3600))
        2).newFlow = some (FlowType.api, 2)
    ∧ (WriteFlowError FlowType.api 1 (SubmitError.expired (-3600))
        2).useFlowID ≠ some 1 :=
  WriteFlowError_expired_api 1 2 (-3600) (by decide)

/-- C5: the "return to UI" sentinel is treated as success: HTTP 200 with
the current flow (same id, no replacement flow), and in the after-hook
pipeline the sentinel halts execution — exactly the hooks before and
including the signalling one run, none after it. -/
theorem returnToUI_treated_as_success (ft : FlowType)
    (flowID freshID : Nat) (pre post : List Hook) (h : Hook)
    (hpre : ∀ x ∈ pre, x.outcome = HookOutcome.ok)
    (hh : h.outcome = HookOutcome.returnToUI) :
    (WriteFlowError ft flowID SubmitError.returnToUI freshID).status = 200
    ∧ (WriteFlowError ft flowID SubmitError.returnToUI freshID).flowID
        = some flowID
    ∧ (WriteFlowError ft flowID SubmitError.returnToUI freshID).newFlow
        = none
    ∧ runAfterHooks (pre ++ h :: post)
        = (pre.map Hook.Name ++ [h.Name], HookOutcome.returnToUI) :=
  ⟨rfl, rfl, rfl, runAfterHooks_halts pre post h hpre hh⟩

/-- C5 witness: a concrete pipeline web_hook → session(sentinel) → later
hook; only the first two run and the response is 200 with flow 3. -/
theorem returnToUI_treated_as_success_witness :
    (WriteFlowError FlowType.browser 3 SubmitError.returnToUI 4).status = 200
    ∧ (WriteFlowError FlowType.browser 3 SubmitError.returnToUI 4).flowID
        = some 3
    ∧ (WriteFlowError FlowType.browser 3 SubmitError.returnToUI 4).newFlow
        = none
    ∧ runAfterHooks ([⟨"web_hook", HookOutcome.ok⟩]
          ++ ⟨"session", HookOutcome.returnToUI⟩
          :: [⟨"later_web_hook", HookOutcome.ok⟩])
        = (["web_hook", "session"], HookOutcome.returnToUI) :=
  returnToUI_treated_as_success FlowType.browser 3 4
    [⟨"web_hook", HookOutcome.ok⟩] [⟨"later_web_hook", HookOutcome.ok⟩]
    ⟨"session", HookOutcome.returnToUI⟩ (by decide) rfl

/-- C6: when no enabled strategy claims a submission, dispatch rejects it
with HTTP 400 and exactly the generic "could not find a strategy" message;
the rejection is identical whatever the registered strategies were, so it
reveals nothing about which methods exist. -/
theorem dispatch_no_strategy_generic (ss ss2 : List LoginStrategy)
    (sub sub2 : Submission)
    (h : ∀ s ∈ ss, ¬(s.enabled = true ∧ s.claims sub = true))
    (h2 : ∀ s ∈ ss2, ¬(s.enabled = true ∧ s.claims sub2 = true)) :
    dispatchSubmission ss sub
      = DispatchResult.rejected 400 [noStrategyFoundMessage]
    ∧ dispatchSubmission ss sub = dispatchSubmission ss2 sub2 := by
  have hf : ss.find? (fun s => s.enabled && s.claims sub) = none := by
    rw [List.find?_eq_none]
    intro s hs
    simp only [Bool.and_eq_true]
    exact fun hc => h s hs ⟨hc.1, hc.2⟩
  have hf2 : ss2.find? (fun s => s.enabled && s.claims sub2) = none := by
    rw [List.find?_eq_none]
    intro s hs
    simp only [Bool.and_eq_true]
    exact fun hc => h2 s hs ⟨hc.1, hc.2⟩
  unfold dispatchSubmission
  rw [hf, hf2]
  exact ⟨rfl, rfl⟩

/-- C6 witness: a registry with a disabled strategy and an enabled one
that does not claim the submission rejects with the generic message, and
matches the rejection of an empty registry. -/
theorem dispatch_no_strategy_generic_witness :
    dispatchSubmission exStrategies exSubmission
      = DispatchResult.rejected 400 [noStrategyFoundMessage]
    ∧ dispatchSubmission exStrategies exSubmission
        = dispatchSubmission [] [] :=
  dispatch_no_strategy_generic exStrategies [] exSubmission []
    (by intro s hs; fin_cases hs <;> simp [exStrategies])
    (by intro s hs; simp at hs)

/-- C7: with account-enumeration mitigation enabled, the identifier-first
hydrator returns the same "no credentials found" error for an unknown
identifier as for a known identity without an applicable credential
method — the two runs are indistinguishable by their error result. -/
theorem idfirst_enumeration_indistinguishable (i : LoginIdentity)
    (hn : i.hasApplicableCredential = false) :
    PopulateLoginMethodIdentifierFirstCredentials true none
      = .error IdFirstError.noCredentialsFound
    ∧ PopulateLoginMethodIdentifierFirstCredentials true (some i)
        = .error IdFirstError.noCredentialsFound
    ∧ PopulateLoginMethodIdentifierFirstCredentials true none
        = PopulateLoginMethodIdentifierFirstCredentials true (some i) := by
  refine ⟨rfl, ?_, ?_⟩ <;>
    simp [PopulateLoginMethodIdentifierFirstCredentials, hn]

/-- C7 witness: the unknown identifier and the concrete known identity
without applicable credentials produce equal errors. -/
theorem idfirst_enumeration_indistinguishable_witness :
    PopulateLoginMethodIdentifierFirstCredentials true none
      = .error IdFirstError.noCredentialsFound
    ∧ PopulateLoginMethodIdentifierFirstCredentials true (some exIdentity)
        = .error IdFirstError.noCredentialsFound
    ∧ PopulateLoginMethodIdentifierFirstCredentials true none
        = PopulateLoginMethodIdentifierFirstCredentials true (some exIdentity) :=
  idfirst_enumeration_indistinguishable exIdentity rfl

end Kratos
